import Mathlib

/-!
Shallow embedding of the error64 library (src/error64.h): a 64-bit error-code
codec (the ERROR64 packing macro and the seven ERROR64_GET_* extraction
macros) and the renderer strerror64 / strerror64ex.

Machine integers are modelled as follows: the 64-bit two's-complement bit
pattern of an int64_t is a Nat below 2 ^ 64, and the signed value it denotes
is recovered by toInt64.  Signed C operations (arithmetic shift right,
bitwise and on a signed operand) are modelled with Int.shiftRight and
Int.land, whose Int semantics agree with two's complement.
-/

set_option maxRecDepth 8192

namespace Error64

/-- Bit offset of the error flag (src/error64.h line 396). -/
def ERR_BIT_E : Nat := 63

/-- Bit offset of the API version field (line 397). -/
def ERR_BIT_V : Nat := 56

/-- Bit offset of the API revision field (line 398). -/
def ERR_BIT_R : Nat := 40

/-- Bit offset of the source-line field (line 399). -/
def ERR_BIT_L : Nat := 24

/-- Bit offset of the negate flag (line 400). -/
def ERR_BIT_N : Nat := 23

/-- Bit offset of the attribute code (line 401). -/
def ERR_BIT_A : Nat := 15

/-- Bit offset of the user-defined noun code (line 402). -/
def ERR_BIT_U : Nat := 0

/-- Bit pattern of the ERR_ERROR flag, the int64 constant 1LL << 63 (line 405).
As a signed value this pattern denotes the most negative int64. -/
def ERR_ERROR : Nat := 1 <<< ERR_BIT_E

/-- The ERR_NOT negate flag, 1LL << 23 (line 406); sign-safe, kept as Int. -/
def ERR_NOT : Int := ((1 <<< ERR_BIT_N : Nat) : Int)

/-! Error attribute constants, kLL << ERR_BIT_A (src/error64.h lines 69-219).
All are positive int64 constants, modelled directly as Int. -/

def ERR_A : Int := ((1 <<< ERR_BIT_A : Nat) : Int)
def ERR_ACK : Int := ((2 <<< ERR_BIT_A : Nat) : Int)
def ERR_ACTIVE : Int := ((3 <<< ERR_BIT_A : Nat) : Int)
def ERR_ALIGNED : Int := ((4 <<< ERR_BIT_A : Nat) : Int)
def ERR_ALLOWED : Int := ((5 <<< ERR_BIT_A : Nat) : Int)
def ERR_ASSIGNED : Int := ((6 <<< ERR_BIT_A : Nat) : Int)
def ERR_ATTACHED : Int := ((7 <<< ERR_BIT_A : Nat) : Int)
def ERR_ATTEMPTED : Int := ((8 <<< ERR_BIT_A : Nat) : Int)
def ERR_AUTHORIZED : Int := ((9 <<< ERR_BIT_A : Nat) : Int)
def ERR_AVAILABLE : Int := ((10 <<< ERR_BIT_A : Nat) : Int)
def ERR_BAD : Int := ((11 <<< ERR_BIT_A : Nat) : Int)
def ERR_BLOCKED : Int := ((12 <<< ERR_BIT_A : Nat) : Int)
def ERR_BROKEN : Int := ((13 <<< ERR_BIT_A : Nat) : Int)
def ERR_BUILT : Int := ((14 <<< ERR_BIT_A : Nat) : Int)
def ERR_BUSY : Int := ((15 <<< ERR_BIT_A : Nat) : Int)
def ERR_CLOSED : Int := ((16 <<< ERR_BIT_A : Nat) : Int)
def ERR_COLLIDED : Int := ((17 <<< ERR_BIT_A : Nat) : Int)
def ERR_COMPILED : Int := ((18 <<< ERR_BIT_A : Nat) : Int)
def ERR_COMPLETE : Int := ((19 <<< ERR_BIT_A : Nat) : Int)
def ERR_CONFLICTED : Int := ((20 <<< ERR_BIT_A : Nat) : Int)
def ERR_CONNECTED : Int := ((21 <<< ERR_BIT_A : Nat) : Int)
def ERR_CONSTRUCTED : Int := ((22 <<< ERR_BIT_A : Nat) : Int)
def ERR_CREATED : Int := ((23 <<< ERR_BIT_A : Nat) : Int)
def ERR_DEFINED : Int := ((24 <<< ERR_BIT_A : Nat) : Int)
def ERR_DENIED : Int := ((25 <<< ERR_BIT_A : Nat) : Int)
def ERR_DEPARTED : Int := ((26 <<< ERR_BIT_A : Nat) : Int)
def ERR_DESTRUCTED : Int := ((27 <<< ERR_BIT_A : Nat) : Int)
def ERR_DETACHED : Int := ((28 <<< ERR_BIT_A : Nat) : Int)
def ERR_DETECTED : Int := ((29 <<< ERR_BIT_A : Nat) : Int)
def ERR_DISABLED : Int := ((30 <<< ERR_BIT_A : Nat) : Int)
def ERR_DOWN : Int := ((31 <<< ERR_BIT_A : Nat) : Int)
def ERR_DOWNLOADED : Int := ((32 <<< ERR_BIT_A : Nat) : Int)
def ERR_EMPTY : Int := ((33 <<< ERR_BIT_A : Nat) : Int)
def ERR_ENABLED : Int := ((34 <<< ERR_BIT_A : Nat) : Int)
def ERR_ENHANCED : Int := ((35 <<< ERR_BIT_A : Nat) : Int)
def ERR_ENOUGH : Int := ((36 <<< ERR_BIT_A : Nat) : Int)
def ERR_EXCEEDED : Int := ((37 <<< ERR_BIT_A : Nat) : Int)
def ERR_EXCHANGED : Int := ((38 <<< ERR_BIT_A : Nat) : Int)
def ERR_EXECUTABLE : Int := ((39 <<< ERR_BIT_A : Nat) : Int)
def ERR_EXISTS : Int := ((40 <<< ERR_BIT_A : Nat) : Int)
def ERR_EXPIRED : Int := ((41 <<< ERR_BIT_A : Nat) : Int)
def ERR_EXTENDED : Int := ((42 <<< ERR_BIT_A : Nat) : Int)
def ERR_FAILED : Int := ((43 <<< ERR_BIT_A : Nat) : Int)
def ERR_FALSE : Int := ((44 <<< ERR_BIT_A : Nat) : Int)
def ERR_FATAL : Int := ((45 <<< ERR_BIT_A : Nat) : Int)
def ERR_FORBIDDEN : Int := ((46 <<< ERR_BIT_A : Nat) : Int)
def ERR_FORMATTED : Int := ((47 <<< ERR_BIT_A : Nat) : Int)
def ERR_FOUND : Int := ((48 <<< ERR_BIT_A : Nat) : Int)
def ERR_FULL : Int := ((49 <<< ERR_BIT_A : Nat) : Int)
def ERR_GONE : Int := ((50 <<< ERR_BIT_A : Nat) : Int)
def ERR_GOOD : Int := ((51 <<< ERR_BIT_A : Nat) : Int)
def ERR_HALTED : Int := ((52 <<< ERR_BIT_A : Nat) : Int)
def ERR_HIDDEN : Int := ((53 <<< ERR_BIT_A : Nat) : Int)
def ERR_HOLD : Int := ((54 <<< ERR_BIT_A : Nat) : Int)
def ERR_IDLE : Int := ((55 <<< ERR_BIT_A : Nat) : Int)
def ERR_ILLEGAL : Int := ((56 <<< ERR_BIT_A : Nat) : Int)
def ERR_IMPLEMENTED : Int := ((57 <<< ERR_BIT_A : Nat) : Int)
def ERR_IN_PROGRESS : Int := ((58 <<< ERR_BIT_A : Nat) : Int)
def ERR_IN_USE : Int := ((59 <<< ERR_BIT_A : Nat) : Int)
def ERR_INITIALIZED : Int := ((60 <<< ERR_BIT_A : Nat) : Int)
def ERR_INSERTED : Int := ((61 <<< ERR_BIT_A : Nat) : Int)
def ERR_INSTALLED : Int := ((62 <<< ERR_BIT_A : Nat) : Int)
def ERR_INTERRUPTED : Int := ((63 <<< ERR_BIT_A : Nat) : Int)
def ERR_JOINED : Int := ((64 <<< ERR_BIT_A : Nat) : Int)
def ERR_KNOWN : Int := ((65 <<< ERR_BIT_A : Nat) : Int)
def ERR_LINKED : Int := ((66 <<< ERR_BIT_A : Nat) : Int)
def ERR_LOADED : Int := ((67 <<< ERR_BIT_A : Nat) : Int)
def ERR_LOCAL : Int := ((68 <<< ERR_BIT_A : Nat) : Int)
def ERR_LOCKED : Int := ((69 <<< ERR_BIT_A : Nat) : Int)
def ERR_LOOPED : Int := ((70 <<< ERR_BIT_A : Nat) : Int)
def ERR_LOST : Int := ((71 <<< ERR_BIT_A : Nat) : Int)
def ERR_MERGED : Int := ((72 <<< ERR_BIT_A : Nat) : Int)
def ERR_MISSING : Int := ((73 <<< ERR_BIT_A : Nat) : Int)
def ERR_MOUNTED : Int := ((74 <<< ERR_BIT_A : Nat) : Int)
def ERR_NEEDED : Int := ((75 <<< ERR_BIT_A : Nat) : Int)
def ERR_NO : Int := ((76 <<< ERR_BIT_A : Nat) : Int)
def ERR_NO_SUCH : Int := ((77 <<< ERR_BIT_A : Nat) : Int)
def ERR_OFF : Int := ((78 <<< ERR_BIT_A : Nat) : Int)
def ERR_ON : Int := ((79 <<< ERR_BIT_A : Nat) : Int)
def ERR_ONLINE : Int := ((80 <<< ERR_BIT_A : Nat) : Int)
def ERR_OPEN : Int := ((81 <<< ERR_BIT_A : Nat) : Int)
def ERR_ORDERED : Int := ((82 <<< ERR_BIT_A : Nat) : Int)
def ERR_OUT_OF : Int := ((83 <<< ERR_BIT_A : Nat) : Int)
def ERR_OUT_OF_RANGE : Int := ((84 <<< ERR_BIT_A : Nat) : Int)
def ERR_OVERFLOW : Int := ((85 <<< ERR_BIT_A : Nat) : Int)
def ERR_PADDED : Int := ((86 <<< ERR_BIT_A : Nat) : Int)
def ERR_PARTED : Int := ((87 <<< ERR_BIT_A : Nat) : Int)
def ERR_PERMITTED : Int := ((88 <<< ERR_BIT_A : Nat) : Int)
def ERR_POPPED : Int := ((89 <<< ERR_BIT_A : Nat) : Int)
def ERR_PRELOADED : Int := ((90 <<< ERR_BIT_A : Nat) : Int)
def ERR_PROCESSABLE : Int := ((91 <<< ERR_BIT_A : Nat) : Int)
def ERR_PROVIDED : Int := ((92 <<< ERR_BIT_A : Nat) : Int)
def ERR_PUSHED : Int := ((93 <<< ERR_BIT_A : Nat) : Int)
def ERR_REACHABLE : Int := ((94 <<< ERR_BIT_A : Nat) : Int)
def ERR_READABLE : Int := ((95 <<< ERR_BIT_A : Nat) : Int)
def ERR_RECEIVED : Int := ((96 <<< ERR_BIT_A : Nat) : Int)
def ERR_REFUSED : Int := ((97 <<< ERR_BIT_A : Nat) : Int)
def ERR_REGISTERED : Int := ((98 <<< ERR_BIT_A : Nat) : Int)
def ERR_REJECTED : Int := ((99 <<< ERR_BIT_A : Nat) : Int)
def ERR_RELEASED : Int := ((100 <<< ERR_BIT_A : Nat) : Int)
def ERR_REMOTE : Int := ((101 <<< ERR_BIT_A : Nat) : Int)
def ERR_REMOVED : Int := ((102 <<< ERR_BIT_A : Nat) : Int)
def ERR_RENDERABLE : Int := ((103 <<< ERR_BIT_A : Nat) : Int)
def ERR_RESERVED : Int := ((104 <<< ERR_BIT_A : Nat) : Int)
def ERR_RESET : Int := ((105 <<< ERR_BIT_A : Nat) : Int)
def ERR_RESPONDING : Int := ((106 <<< ERR_BIT_A : Nat) : Int)
def ERR_RETRIED : Int := ((107 <<< ERR_BIT_A : Nat) : Int)
def ERR_RIGHT : Int := ((108 <<< ERR_BIT_A : Nat) : Int)
def ERR_RUNNING : Int := ((109 <<< ERR_BIT_A : Nat) : Int)
def ERR_SENT : Int := ((110 <<< ERR_BIT_A : Nat) : Int)
def ERR_SHARED : Int := ((111 <<< ERR_BIT_A : Nat) : Int)
def ERR_SORTED : Int := ((112 <<< ERR_BIT_A : Nat) : Int)
def ERR_SPECIFIED : Int := ((113 <<< ERR_BIT_A : Nat) : Int)
def ERR_SPLITTED : Int := ((114 <<< ERR_BIT_A : Nat) : Int)
def ERR_STALLED : Int := ((115 <<< ERR_BIT_A : Nat) : Int)
def ERR_STOPPED : Int := ((116 <<< ERR_BIT_A : Nat) : Int)
def ERR_SUCEEDED : Int := ((117 <<< ERR_BIT_A : Nat) : Int)
def ERR_SUITABLE : Int := ((118 <<< ERR_BIT_A : Nat) : Int)
def ERR_SUPPORTED : Int := ((119 <<< ERR_BIT_A : Nat) : Int)
def ERR_SYNCHRONIZED : Int := ((120 <<< ERR_BIT_A : Nat) : Int)
def ERR_TERMINATED : Int := ((121 <<< ERR_BIT_A : Nat) : Int)
def ERR_THROWN : Int := ((122 <<< ERR_BIT_A : Nat) : Int)
def ERR_TIMED_OUT : Int := ((123 <<< ERR_BIT_A : Nat) : Int)
def ERR_TOO_COMPLEX : Int := ((124 <<< ERR_BIT_A : Nat) : Int)
def ERR_TOO_FEW : Int := ((125 <<< ERR_BIT_A : Nat) : Int)
def ERR_TOO_LARGE : Int := ((126 <<< ERR_BIT_A : Nat) : Int)
def ERR_TOO_LONG : Int := ((127 <<< ERR_BIT_A : Nat) : Int)
def ERR_TOO_MANY : Int := ((128 <<< ERR_BIT_A : Nat) : Int)
def ERR_TOO_MUCH : Int := ((129 <<< ERR_BIT_A : Nat) : Int)
def ERR_TOO_SIMPLE : Int := ((130 <<< ERR_BIT_A : Nat) : Int)
def ERR_TOO_SMALL : Int := ((131 <<< ERR_BIT_A : Nat) : Int)
def ERR_TRIGGERED : Int := ((132 <<< ERR_BIT_A : Nat) : Int)
def ERR_TRUE : Int := ((133 <<< ERR_BIT_A : Nat) : Int)
def ERR_UNBLOCKED : Int := ((134 <<< ERR_BIT_A : Nat) : Int)
def ERR_UNDERFLOW : Int := ((135 <<< ERR_BIT_A : Nat) : Int)
def ERR_UNINITIALIZED : Int := ((136 <<< ERR_BIT_A : Nat) : Int)
def ERR_UNINSTALLED : Int := ((137 <<< ERR_BIT_A : Nat) : Int)
def ERR_UNIQUE : Int := ((138 <<< ERR_BIT_A : Nat) : Int)
def ERR_UNLOADED : Int := ((139 <<< ERR_BIT_A : Nat) : Int)
def ERR_UNLOCKED : Int := ((140 <<< ERR_BIT_A : Nat) : Int)
def ERR_UNSORTED : Int := ((141 <<< ERR_BIT_A : Nat) : Int)
def ERR_UP : Int := ((142 <<< ERR_BIT_A : Nat) : Int)
def ERR_UPDATED : Int := ((143 <<< ERR_BIT_A : Nat) : Int)
def ERR_UPGRADED : Int := ((144 <<< ERR_BIT_A : Nat) : Int)
def ERR_UPLOADED : Int := ((145 <<< ERR_BIT_A : Nat) : Int)
def ERR_USED : Int := ((146 <<< ERR_BIT_A : Nat) : Int)
def ERR_VALID : Int := ((147 <<< ERR_BIT_A : Nat) : Int)
def ERR_VISIBLE : Int := ((148 <<< ERR_BIT_A : Nat) : Int)
def ERR_WORKING : Int := ((149 <<< ERR_BIT_A : Nat) : Int)
def ERR_WRITABLE : Int := ((150 <<< ERR_BIT_A : Nat) : Int)
def ERR_WRONG : Int := ((151 <<< ERR_BIT_A : Nat) : Int)

def ERR_NOT_A : Int := Int.lor ERR_NOT ERR_A
def ERR_NOT_ENOUGH : Int := Int.lor ERR_NOT ERR_ENOUGH

/-- Signed value denoted by a 64-bit two's-complement bit pattern. -/
def toInt64 (n : Nat) : Int := if n < 2 ^ 63 then (n : Int) else (n : Int) - 2 ^ 64

/-- Two's-complement narrowing of an Int to the int32_t range, modelling the
C cast (int32_t) in the ERROR64_GET_* macros. -/
def toInt32 (i : Int) : Int := (i + 2 ^ 31) % 2 ^ 32 - 2 ^ 31

/-- Bit pattern of the int64 produced by the ERROR64(x) macro
(src/error64.h line 41): ERR_ERROR | (ver << 56) | (rev << 40) | (line << 24) | x,
where ver and rev stand for the build-time constants ERR_VER_NO and ERR_REV_NO
and line for __LINE__.  Computed on the 64-bit pattern, truncated mod 2 ^ 64. -/
def ERROR64 (ver rev line x : Nat) : Nat :=
  (ERR_ERROR ||| (ver <<< ERR_BIT_V) ||| (rev <<< ERR_BIT_R) |||
    (line <<< ERR_BIT_L) ||| x) % 2 ^ 64

/-- ERROR64_GET_E(ec) = (int32_t)((ec >> 63) & 0x1) (src/error64.h line 44). -/
def ERROR64_GET_E (ec : Int) : Int := toInt32 (Int.land (Int.shiftRight ec ERR_BIT_E) 0x1)

/-- ERROR64_GET_V(ec) = (int32_t)((ec >> 56) & 0x7f) (line 45). -/
def ERROR64_GET_V (ec : Int) : Int := toInt32 (Int.land (Int.shiftRight ec ERR_BIT_V) 0x7f)

/-- ERROR64_GET_R(ec) = (int32_t)((ec >> 40) & 0xffff) (line 46). -/
def ERROR64_GET_R (ec : Int) : Int := toInt32 (Int.land (Int.shiftRight ec ERR_BIT_R) 0xffff)

/-- ERROR64_GET_L(ec) = (int32_t)((ec >> 24) & 0xffff) (line 47). -/
def ERROR64_GET_L (ec : Int) : Int := toInt32 (Int.land (Int.shiftRight ec ERR_BIT_L) 0xffff)

/-- ERROR64_GET_N(ec) = (int32_t)((ec >> 23) & 0x1) (line 48). -/
def ERROR64_GET_N (ec : Int) : Int := toInt32 (Int.land (Int.shiftRight ec ERR_BIT_N) 0x1)

/-- ERROR64_GET_A(ec) = (int32_t)((ec >> 15) & 0xff) (line 49). -/
def ERROR64_GET_A (ec : Int) : Int := toInt32 (Int.land (Int.shiftRight ec ERR_BIT_A) 0xff)

/-- ERROR64_GET_U(ec) = (int32_t)((ec >> 0) & 0x7fff) (line 50). -/
def ERROR64_GET_U (ec : Int) : Int := toInt32 (Int.land (Int.shiftRight ec ERR_BIT_U) 0x7fff)

def adjSwitch (t : Int) : String :=
  if t = ERR_A then "A"
  else if t = ERR_ACK then "ACK"
  else if t = ERR_ACTIVE then "ACTIVE"
  else if t = ERR_ALIGNED then "ALIGNED"
  else if t = ERR_ALLOWED then "ALLOWED"
  else if t = ERR_ASSIGNED then "ASSIGNED"
  else if t = ERR_ATTACHED then "ATTACHED"
  else if t = ERR_ATTEMPTED then "ATTEMPTED"
  else if t = ERR_AUTHORIZED then "AUTHORIZED"
  else if t = ERR_AVAILABLE then "AVAILABLE"
  else if t = ERR_BAD then "BAD"
  else if t = ERR_BLOCKED then "BLOCKED"
  else if t = ERR_BROKEN then "BROKEN"
  else if t = ERR_BUILT then "BUILT"
  else if t = ERR_BUSY then "BUSY"
  else if t = ERR_CLOSED then "CLOSED"
  else if t = ERR_COMPILED then "COMPILED"
  else if t = ERR_COMPLETE then "COMPLETE"
  else if t = ERR_CONFLICTED then "CONFLICTED"
  else if t = ERR_CONNECTED then "CONNECTED"
  else if t = ERR_CONSTRUCTED then "CONSTRUCTED"
  else if t = ERR_CREATED then "CREATED"
  else if t = ERR_DEFINED then "DEFINED"
  else if t = ERR_DENIED then "DENIED"
  else if t = ERR_DESTRUCTED then "DESTRUCTED"
  else if t = ERR_DETACHED then "DETACHED"
  else if t = ERR_DETECTED then "DETECTED"
  else if t = ERR_DOWN then "DOWN"
  else if t = ERR_DOWNLOADED then "DOWNLOADED"
  else if t = ERR_EMPTY then "EMPTY"
  else if t = ERR_ENHANCED then "ENHANCED"
  else if t = ERR_ENOUGH then "ENOUGH"
  else if t = ERR_EXCEEDED then "EXCEEDED"
  else if t = ERR_EXCHANGED then "EXCHANGED"
  else if t = ERR_EXECUTABLE then "EXECUTABLE"
  else if t = ERR_EXISTS then "EXISTS"
  else if t = ERR_EXPIRED then "EXPIRED"
  else if t = ERR_EXTENDED then "EXTENDED"
  else if t = ERR_FAILED then "FAILED"
  else if t = ERR_FALSE then "FALSE"
  else if t = ERR_FATAL then "FATAL"
  else if t = ERR_FORBIDDEN then "FORBIDDEN"
  else if t = ERR_FORMATTED then "FORMATTED"
  else if t = ERR_FOUND then "FOUND"
  else if t = ERR_FULL then "FULL"
  else if t = ERR_GONE then "GONE"
  else if t = ERR_GOOD then "GOOD"
  else if t = ERR_HALTED then "HALTED"
  else if t = ERR_HOLD then "HOLD"
  else if t = ERR_IDLE then "IDLE"
  else if t = ERR_ILLEGAL then "ILLEGAL"
  else if t = ERR_IMPLEMENTED then "IMPLEMENTED"
  else if t = ERR_IN_PROGRESS then "IN PROGRESS"
  else if t = ERR_IN_USE then "IN USE"
  else if t = ERR_INITIALIZED then "INITIALIZED"
  else if t = ERR_INSTALLED then "INSTALLED"
  else if t = ERR_INTERRUPTED then "INTERRUPTED"
  else if t = ERR_KNOWN then "KNOWN"
  else if t = ERR_LINKED then "LINKED"
  else if t = ERR_LOADED then "LOADED"
  else if t = ERR_LOCAL then "LOCAL"
  else if t = ERR_LOCKED then "LOCKED"
  else if t = ERR_LOOPED then "LOOPED"
  else if t = ERR_LOST then "LOST"
  else if t = ERR_MISSING then "MISSING"
  else if t = ERR_MOUNTED then "MOUNTED"
  else if t = ERR_NEEDED then "NEEDED"
  else if t = ERR_NO then "NO"
  else if t = ERR_NO_SUCH then "NO SUCH"
  else if t = ERR_OFF then "OFF"
  else if t = ERR_ON then "ON"
  else if t = ERR_ONLINE then "ONLINE"
  else if t = ERR_OPEN then "OPEN"
  else if t = ERR_ORDERED then "ORDERED"
  else if t = ERR_OUT_OF then "OUT OF"
  else if t = ERR_OUT_OF_RANGE then "OUT OF RANGE"
  else if t = ERR_OVERFLOW then "OVERFLOW"
  else if t = ERR_PADDED then "PADDED"
  else if t = ERR_PERMITTED then "PERMITTED"
  else if t = ERR_PROCESSABLE then "PROCESSABLE"
  else if t = ERR_PROVIDED then "PROVIDED"
  else if t = ERR_REACHABLE then "REACHABLE"
  else if t = ERR_READABLE then "READABLE"
  else if t = ERR_RECEIVED then "RECEIVED"
  else if t = ERR_REFUSED then "REFUSED"
  else if t = ERR_REGISTERED then "REGISTERED"
  else if t = ERR_REJECTED then "REJECTED"
  else if t = ERR_RELEASED then "RELEASED"
  else if t = ERR_REMOTE then "REMOTE"
  else if t = ERR_RENDERABLE then "RENDERABLE"
  else if t = ERR_RESERVED then "RESERVED"
  else if t = ERR_RESET then "RESET"
  else if t = ERR_RESPONDING then "RESPONDING"
  else if t = ERR_RETRIED then "RETRIED"
  else if t = ERR_RIGHT then "RIGHT"
  else if t = ERR_RUNNING then "RUNNING"
  else if t = ERR_SENT then "SENT"
  else if t = ERR_SPECIFIED then "SPECIFIED"
  else if t = ERR_STALLED then "STALLED"
  else if t = ERR_STOPPED then "STOPPED"
  else if t = ERR_SUCEEDED then "SUCEEDED"
  else if t = ERR_SUITABLE then "SUITABLE"
  else if t = ERR_SUPPORTED then "SUPPORTED"
  else if t = ERR_SYNCHRONIZED then "SYNCHRONIZED"
  else if t = ERR_TERMINATED then "TERMINATED"
  else if t = ERR_THROWN then "THROWN"
  else if t = ERR_TIMED_OUT then "TIMED OUT"
  else if t = ERR_TOO_COMPLEX then "TOO COMPLEX"
  else if t = ERR_TOO_FEW then "TOO FEW"
  else if t = ERR_TOO_LARGE then "TOO LARGE"
  else if t = ERR_TOO_LONG then "TOO LONG"
  else if t = ERR_TOO_MANY then "TOO MANY"
  else if t = ERR_TOO_MUCH then "TOO MUCH"
  else if t = ERR_TOO_SIMPLE then "TOO SIMPLE"
  else if t = ERR_TOO_SMALL then "TOO SMALL"
  else if t = ERR_TRIGGERED then "TRIGGERED"
  else if t = ERR_TRUE then "TRUE"
  else if t = ERR_UNIQUE then "UNIQUE"
  else if t = ERR_UP then "UP"
  else if t = ERR_UPDATED then "UPDATED"
  else if t = ERR_UPGRADED then "UPGRADED"
  else if t = ERR_UPLOADED then "UPLOADED"
  else if t = ERR_USED then "USED"
  else if t = ERR_VALID then "VALID"
  else if t = ERR_WORKING then "WORKING"
  else if t = ERR_WRITABLE then "WRITABLE"
  else if t = ERR_WRONG then "WRONG"
  else ""

/-- The strcpy/strcat sequence of strerror64 (src/error64.h lines 567-571):
each of the first two components is followed by a single space iff that
component is non-empty (use[i][0] tests the first byte). -/
def join3 (s0 s1 s2 : String) : String :=
  s0 ++ (if s0 = "" then "" else " ") ++ s1 ++ (if s1 = "" then "" else " ") ++ s2

/-- strerror64 (src/error64.h lines 422-573).  The caller-supplied noun
glossary is a parameter; the 256-byte output buffer is modelled as an
unbounded String (no truncation occurs in the claims considered). -/
def strerror64 (glossary : Int → String) (errno64 : Int) : String :=
  if 0 ≤ errno64 then "" else
  let noun : String := glossary (Int.land errno64 0x7fff)
  let neg : String := if Int.land errno64 ((1 <<< ERR_BIT_N : Nat) : Int) ≠ 0 then "NOT" else ""
  let adj : String := adjSwitch (Int.land errno64 ((0xff <<< ERR_BIT_A : Nat) : Int))
  let type : Int := Int.land errno64 ((0x1ff <<< ERR_BIT_A : Nat) : Int)
  if type = ERR_A ∨ type = ERR_NOT_A ∨ type = ERR_NO ∨ type = ERR_NO_SUCH ∨
      type = ERR_ENOUGH ∨ type = ERR_NOT_ENOUGH then
    join3 neg adj noun
  else
    join3 noun neg adj

/-- strerror64ex (src/error64.h lines 576-593).  The pfmt parameter models
the platform-defined rendering of printf %p applied to (void *)error64;
the %d fields print the seven extracted values. -/
def strerror64ex (glossary : Int → String) (pfmt : Int → String) (error64 : Int) : String :=
  if 0 ≤ error64 then
    "No error ; ERR_" ++ pfmt error64
  else
    strerror64 glossary error64 ++
      (" ; ERR_" ++ pfmt error64 ++
       " error=" ++ toString (ERROR64_GET_E error64) ++
       ",api=" ++ toString (ERROR64_GET_V error64) ++
       ",rev=" ++ toString (ERROR64_GET_R error64) ++
       ",line=" ++ toString (ERROR64_GET_L error64) ++
       ",neg=" ++ toString (ERROR64_GET_N error64) ++
       ",attr=" ++ toString (ERROR64_GET_A error64) ++
       ",noun=" ++ toString (ERROR64_GET_U error64))

def specAdj (a : Nat) : String :=
  if a = 1 then "A"
  else if a = 2 then "ACK"
  else if a = 3 then "ACTIVE"
  else if a = 4 then "ALIGNED"
  else if a = 5 then "ALLOWED"
  else if a = 6 then "ASSIGNED"
  else if a = 7 then "ATTACHED"
  else if a = 8 then "ATTEMPTED"
  else if a = 9 then "AUTHORIZED"
  else if a = 10 then "AVAILABLE"
  else if a = 11 then "BAD"
  else if a = 12 then "BLOCKED"
  else if a = 13 then "BROKEN"
  else if a = 14 then "BUILT"
  else if a = 15 then "BUSY"
  else if a = 16 then "CLOSED"
  else if a = 18 then "COMPILED"
  else if a = 19 then "COMPLETE"
  else if a = 20 then "CONFLICTED"
  else if a = 21 then "CONNECTED"
  else if a = 22 then "CONSTRUCTED"
  else if a = 23 then "CREATED"
  else if a = 24 then "DEFINED"
  else if a = 25 then "DENIED"
  else if a = 27 then "DESTRUCTED"
  else if a = 28 then "DETACHED"
  else if a = 29 then "DETECTED"
  else if a = 31 then "DOWN"
  else if a = 32 then "DOWNLOADED"
  else if a = 33 then "EMPTY"
  else if a = 35 then "ENHANCED"
  else if a = 36 then "ENOUGH"
  else if a = 37 then "EXCEEDED"
  else if a = 38 then "EXCHANGED"
  else if a = 39 then "EXECUTABLE"
  else if a = 40 then "EXISTS"
  else if a = 41 then "EXPIRED"
  else if a = 42 then "EXTENDED"
  else if a = 43 then "FAILED"
  else if a = 44 then "FALSE"
  else if a = 45 then "FATAL"
  else if a = 46 then "FORBIDDEN"
  else if a = 47 then "FORMATTED"
  else if a = 48 then "FOUND"
  else if a = 49 then "FULL"
  else if a = 50 then "GONE"
  else if a = 51 then "GOOD"
  else if a = 52 then "HALTED"
  else if a = 54 then "HOLD"
  else if a = 55 then "IDLE"
  else if a = 56 then "ILLEGAL"
  else if a = 57 then "IMPLEMENTED"
  else if a = 58 then "IN PROGRESS"
  else if a = 59 then "IN USE"
  else if a = 60 then "INITIALIZED"
  else if a = 62 then "INSTALLED"
  else if a = 63 then "INTERRUPTED"
  else if a = 65 then "KNOWN"
  else if a = 66 then "LINKED"
  else if a = 67 then "LOADED"
  else if a = 68 then "LOCAL"
  else if a = 69 then "LOCKED"
  else if a = 70 then "LOOPED"
  else if a = 71 then "LOST"
  else if a = 73 then "MISSING"
  else if a = 74 then "MOUNTED"
  else if a = 75 then "NEEDED"
  else if a = 76 then "NO"
  else if a = 77 then "NO SUCH"
  else if a = 78 then "OFF"
  else if a = 79 then "ON"
  else if a = 80 then "ONLINE"
  else if a = 81 then "OPEN"
  else if a = 82 then "ORDERED"
  else if a = 83 then "OUT OF"
  else if a = 84 then "OUT OF RANGE"
  else if a = 85 then "OVERFLOW"
  else if a = 86 then "PADDED"
  else if a = 88 then "PERMITTED"
  else if a = 91 then "PROCESSABLE"
  else if a = 92 then "PROVIDED"
  else if a = 94 then "REACHABLE"
  else if a = 95 then "READABLE"
  else if a = 96 then "RECEIVED"
  else if a = 97 then "REFUSED"
  else if a = 98 then "REGISTERED"
  else if a = 99 then "REJECTED"
  else if a = 100 then "RELEASED"
  else if a = 101 then "REMOTE"
  else if a = 103 then "RENDERABLE"
  else if a = 104 then "RESERVED"
  else if a = 105 then "RESET"
  else if a = 106 then "RESPONDING"
  else if a = 107 then "RETRIED"
  else if a = 108 then "RIGHT"
  else if a = 109 then "RUNNING"
  else if a = 110 then "SENT"
  else if a = 113 then "SPECIFIED"
  else if a = 115 then "STALLED"
  else if a = 116 then "STOPPED"
  else if a = 117 then "SUCEEDED"
  else if a = 118 then "SUITABLE"
  else if a = 119 then "SUPPORTED"
  else if a = 120 then "SYNCHRONIZED"
  else if a = 121 then "TERMINATED"
  else if a = 122 then "THROWN"
  else if a = 123 then "TIMED OUT"
  else if a = 124 then "TOO COMPLEX"
  else if a = 125 then "TOO FEW"
  else if a = 126 then "TOO LARGE"
  else if a = 127 then "TOO LONG"
  else if a = 128 then "TOO MANY"
  else if a = 129 then "TOO MUCH"
  else if a = 130 then "TOO SIMPLE"
  else if a = 131 then "TOO SMALL"
  else if a = 132 then "TRIGGERED"
  else if a = 133 then "TRUE"
  else if a = 138 then "UNIQUE"
  else if a = 142 then "UP"
  else if a = 143 then "UPDATED"
  else if a = 144 then "UPGRADED"
  else if a = 145 then "UPLOADED"
  else if a = 146 then "USED"
  else if a = 147 then "VALID"
  else if a = 149 then "WORKING"
  else if a = 150 then "WRITABLE"
  else if a = 151 then "WRONG"
  else ""

/-- The combined 9-bit (negation, attribute) values for which strerror64
switches to the special word order (src/error64.h lines 560-566), as plain
field values: A = 1, NOT A = 256 + 1, NO = 76, NO SUCH = 77, ENOUGH = 36,
NOT ENOUGH = 256 + 36. -/
def specialTypes : List Nat := [1, 257, 76, 77, 36, 292]

/-- The 24 attribute codes among the 151 defined in src/error64.h lines
69-219 that the renderer switch (lines 430-559) does not handle; they fall
through to the default branch and render as the empty adjective. -/
def missingAttrs : List Nat :=
  [17, 26, 30, 34, 53, 61, 64, 72, 87, 89, 90, 93, 102, 111, 112, 114,
   134, 135, 136, 137, 139, 140, 141, 148]



/-- Space-separated join of a list of words, used to state how strerror64
assembles its non-empty components. -/
def joinSp : List String → String
  | [] => ""
  | [s] => s
  | s :: rest => s ++ " " ++ joinSp rest

/-- The three message components of a negative code in the order strerror64
joins them: neg-adj-noun for the special combined codes, noun-neg-adj
otherwise; field values are read from the bit pattern n. -/
def orderedParts (g : Int → String) (n : Nat) : List String :=
  let noun := g ((n &&& 0x7fff : Nat) : Int)
  let neg := if (n >>> 23) &&& 1 = 1 then "NOT" else ""
  let adj := specAdj ((n >>> 15) &&& 0xff)
  if ((n >>> 15) &&& 0x1ff) ∈ specialTypes then [neg, adj, noun] else [noun, neg, adj]

/-- Expected full output of strerror64 for an error code carrying only an
attribute (negation clear, noun zero, glossary mapping 0 to the empty
string): the attribute word of the switch, with a trailing space for the
four special-ordered attributes A, ENOUGH, NO, NO SUCH (their empty noun
comes last in the join, after the separator). -/
def expectedAttrOutput (a : Nat) : String :=
  if a ∈ [1, 36, 76, 77] then specAdj a ++ " " else specAdj a



/-! ### Bridging lemmas between the signed Int operations of the C model and
unsigned operations on the 64-bit pattern -/

theorem toInt64_negSucc (n : Nat) (hn : n < 2 ^ 64) (he : 2 ^ 63 ≤ n) :
    toInt64 n = Int.negSucc (2 ^ 64 - 1 - n) := by
  simp only [toInt64, if_neg (by omega : ¬ n < 2 ^ 63)]
  rw [Int.negSucc_eq]
  omega

theorem land_toInt64 (n m : Nat) (hn : n < 2 ^ 64) (hm : m < 2 ^ 64) :
    Int.land (toInt64 n) (m : Int) = ((n &&& m : Nat) : Int) := by
  by_cases h : n < 2 ^ 63
  · simp only [toInt64, if_pos h]
    rfl
  · rw [toInt64_negSucc n hn (by omega)]
    show Int.ofNat (Nat.ldiff m (2 ^ 64 - 1 - n)) = ((n &&& m : Nat) : Int)
    have hld : Nat.ldiff m (2 ^ 64 - 1 - n) = n &&& m := by
      apply Nat.eq_of_testBit_eq
      intro i
      have h1 : 2 ^ 64 - 1 - n = 2 ^ 64 - (n + 1) := by omega
      rw [Nat.testBit_ldiff, h1, Nat.testBit_two_pow_sub_succ hn, Nat.testBit_and]
      by_cases hi : i < 64
      · simp only [hi, decide_True, Bool.true_and]
        cases Nat.testBit m i <;> cases Nat.testBit n i <;> simp
      · have hm2 : Nat.testBit m i = false :=
          Nat.testBit_lt_two_pow (lt_of_lt_of_le hm (Nat.pow_le_pow_right (by norm_num) (by omega)))
        simp [hm2]
    rw [hld]
    rfl

theorem sar_land (n s k : Nat) (hn : n < 2 ^ 64) (hsk : s + k ≤ 64) :
    Int.land (Int.shiftRight (toInt64 n) s) ((2 ^ k - 1 : Nat) : Int) =
    (((n >>> s) % 2 ^ k : Nat) : Int) := by
  by_cases h : n < 2 ^ 63
  · simp only [toInt64, if_pos h]
    show Int.ofNat ((n >>> s) &&& (2 ^ k - 1)) = _
    rw [Nat.and_pow_two_sub_one_eq_mod]
    rfl
  · rw [toInt64_negSucc n hn (by omega)]
    show Int.ofNat (Nat.ldiff (2 ^ k - 1) ((2 ^ 64 - 1 - n) >>> s)) = _
    have hld : Nat.ldiff (2 ^ k - 1) ((2 ^ 64 - 1 - n) >>> s) = (n >>> s) % 2 ^ k := by
      apply Nat.eq_of_testBit_eq
      intro i
      have h1 : 2 ^ 64 - 1 - n = 2 ^ 64 - (n + 1) := by omega
      rw [Nat.testBit_ldiff, Nat.testBit_mod_two_pow, Nat.testBit_shiftRight,
        Nat.testBit_shiftRight, h1, Nat.testBit_two_pow_sub_succ hn,
        Nat.testBit_two_pow_sub_one]
      by_cases hi : i < k
      · have hsi : s + i < 64 := by omega
        simp only [hi, decide_True, hsi, Bool.true_and]
        cases Nat.testBit n (s + i) <;> simp
      · simp [hi]
    rw [hld]
    rfl

theorem toInt32_of_lt (i : Int) (h0 : 0 ≤ i) (h1 : i < 2 ^ 31) : toInt32 i = i := by
  unfold toInt32
  have h2 : (i + 2 ^ 31) % 2 ^ 32 = i + 2 ^ 31 := Int.emod_eq_of_lt (by omega) (by omega)
  omega

theorem lor_eq_add (a b k : Nat) (ha : a % 2 ^ k = 0) (hb : b < 2 ^ k) :
    a ||| b = a + b := by
  obtain ⟨c, hc⟩ := Nat.dvd_of_mod_eq_zero ha
  subst hc
  exact (Nat.mul_add_lt_is_or hb c).symm

theorem getAux (n s k : Nat) (hn : n < 2 ^ 64) (hsk : s + k ≤ 64) (hk : k ≤ 16) :
    toInt32 (Int.land (Int.shiftRight (toInt64 n) s) ((2 ^ k - 1 : Nat) : Int)) =
    (((n >>> s) % 2 ^ k : Nat) : Int) := by
  rw [sar_land n s k hn hsk]
  apply toInt32_of_lt _ (Int.ofNat_nonneg _)
  have h1 : n >>> s % 2 ^ k < 2 ^ k := Nat.mod_lt _ (by positivity)
  have h2 : (2 : Nat) ^ k ≤ 2 ^ 16 := Nat.pow_le_pow_right (by norm_num) hk
  exact_mod_cast lt_of_lt_of_le h1 (le_trans h2 (by norm_num))

/-! ### The seven extraction macros compute unsigned shift-and-mask on the
bit pattern -/

theorem ERROR64_GET_E_eq (n : Nat) (hn : n < 2 ^ 64) :
    ERROR64_GET_E (toInt64 n) = ((n >>> 63) &&& 0x1 : Nat) := by
  conv_rhs => rw [(show (0x1 : Nat) = 2 ^ 1 - 1 by norm_num), Nat.and_pow_two_sub_one_eq_mod]
  simp only [ERROR64_GET_E, ERR_BIT_E]
  rw [(show (0x1 : Int) = ((2 ^ 1 - 1 : Nat) : Int) by norm_num)]
  exact getAux n 63 1 hn (by norm_num) (by norm_num)

theorem ERROR64_GET_V_eq (n : Nat) (hn : n < 2 ^ 64) :
    ERROR64_GET_V (toInt64 n) = ((n >>> 56) &&& 0x7f : Nat) := by
  conv_rhs => rw [(show (0x7f : Nat) = 2 ^ 7 - 1 by norm_num), Nat.and_pow_two_sub_one_eq_mod]
  simp only [ERROR64_GET_V, ERR_BIT_V]
  rw [(show (0x7f : Int) = ((2 ^ 7 - 1 : Nat) : Int) by norm_num)]
  exact getAux n 56 7 hn (by norm_num) (by norm_num)

theorem ERROR64_GET_R_eq (n : Nat) (hn : n < 2 ^ 64) :
    ERROR64_GET_R (toInt64 n) = ((n >>> 40) &&& 0xffff : Nat) := by
  conv_rhs => rw [(show (0xffff : Nat) = 2 ^ 16 - 1 by norm_num), Nat.and_pow_two_sub_one_eq_mod]
  simp only [ERROR64_GET_R, ERR_BIT_R]
  rw [(show (0xffff : Int) = ((2 ^ 16 - 1 : Nat) : Int) by norm_num)]
  exact getAux n 40 16 hn (by norm_num) (by norm_num)

theorem ERROR64_GET_L_eq (n : Nat) (hn : n < 2 ^ 64) :
    ERROR64_GET_L (toInt64 n) = ((n >>> 24) &&& 0xffff : Nat) := by
  conv_rhs => rw [(show (0xffff : Nat) = 2 ^ 16 - 1 by norm_num), Nat.and_pow_two_sub_one_eq_mod]
  simp only [ERROR64_GET_L, ERR_BIT_L]
  rw [(show (0xffff : Int) = ((2 ^ 16 - 1 : Nat) : Int) by norm_num)]
  exact getAux n 24 16 hn (by norm_num) (by norm_num)

theorem ERROR64_GET_N_eq (n : Nat) (hn : n < 2 ^ 64) :
    ERROR64_GET_N (toInt64 n) = ((n >>> 23) &&& 0x1 : Nat) := by
  conv_rhs => rw [(show (0x1 : Nat) = 2 ^ 1 - 1 by norm_num), Nat.and_pow_two_sub_one_eq_mod]
  simp only [ERROR64_GET_N, ERR_BIT_N]
  rw [(show (0x1 : Int) = ((2 ^ 1 - 1 : Nat) : Int) by norm_num)]
  exact getAux n 23 1 hn (by norm_num) (by norm_num)

theorem ERROR64_GET_A_eq (n : Nat) (hn : n < 2 ^ 64) :
    ERROR64_GET_A (toInt64 n) = ((n >>> 15) &&& 0xff : Nat) := by
  conv_rhs => rw [(show (0xff : Nat) = 2 ^ 8 - 1 by norm_num), Nat.and_pow_two_sub_one_eq_mod]
  simp only [ERROR64_GET_A, ERR_BIT_A]
  rw [(show (0xff : Int) = ((2 ^ 8 - 1 : Nat) : Int) by norm_num)]
  exact getAux n 15 8 hn (by norm_num) (by norm_num)

theorem ERROR64_GET_U_eq (n : Nat) (hn : n < 2 ^ 64) :
    ERROR64_GET_U (toInt64 n) = ((n >>> 0) &&& 0x7fff : Nat) := by
  conv_rhs => rw [(show (0x7fff : Nat) = 2 ^ 15 - 1 by norm_num), Nat.and_pow_two_sub_one_eq_mod]
  simp only [ERROR64_GET_U, ERR_BIT_U]
  rw [(show (0x7fff : Int) = ((2 ^ 15 - 1 : Nat) : Int) by norm_num)]
  exact getAux n 0 15 hn (by norm_num) (by norm_num)

/-! ### The encoder pattern as a sum of disjoint fields -/

theorem ERROR64_eq_sum (v r l ng a u : Nat) (hv : v < 2 ^ 7) (hr : r < 2 ^ 16)
    (hl : l < 2 ^ 16) (hng : ng < 2) (ha : a < 2 ^ 8) (hu : u < 2 ^ 15) :
    ERROR64 v r l ((ng <<< ERR_BIT_N) ||| (a <<< ERR_BIT_A) ||| u) =
      2 ^ 63 + v * 2 ^ 56 + r * 2 ^ 40 + l * 2 ^ 24 + ng * 2 ^ 23 + a * 2 ^ 15 + u := by
  unfold ERROR64 ERR_ERROR ERR_BIT_E ERR_BIT_V ERR_BIT_R ERR_BIT_L ERR_BIT_N ERR_BIT_A
  simp only [Nat.shiftLeft_eq]
  rw [lor_eq_add (ng * 2 ^ 23) (a * 2 ^ 15) 23 (by omega) (by omega)]
  rw [lor_eq_add (ng * 2 ^ 23 + a * 2 ^ 15) u 15 (by omega) (by omega)]
  rw [lor_eq_add (1 * 2 ^ 63) (v * 2 ^ 56) 63 (by omega) (by omega)]
  rw [lor_eq_add (1 * 2 ^ 63 + v * 2 ^ 56) (r * 2 ^ 40) 56 (by omega) (by omega)]
  rw [lor_eq_add (1 * 2 ^ 63 + v * 2 ^ 56 + r * 2 ^ 40) (l * 2 ^ 24) 40 (by omega) (by omega)]
  rw [lor_eq_add (1 * 2 ^ 63 + v * 2 ^ 56 + r * 2 ^ 40 + l * 2 ^ 24)
    (ng * 2 ^ 23 + a * 2 ^ 15 + u) 24 (by omega) (by omega)]
  omega

theorem ERROR64_lt (v r l x : Nat) : ERROR64 v r l x < 2 ^ 64 :=
  Nat.mod_lt _ (by norm_num)

theorem ERROR64_ge (v r l x : Nat) : 2 ^ 63 ≤ ERROR64 v r l x := by
  have hbit : Nat.testBit (ERROR64 v r l x) 63 = true := by
    unfold ERROR64 ERR_ERROR ERR_BIT_E ERR_BIT_V ERR_BIT_R ERR_BIT_L
    rw [Nat.testBit_mod_two_pow]
    simp only [Nat.testBit_or, Bool.or_eq_true, decide_True, Bool.true_and, Bool.and_eq_true,
      decide_eq_true_eq]
    refine ⟨by norm_num, Or.inl (Or.inl (Or.inl (Or.inl ?_)))⟩
    decide
  exact Nat.testBit_implies_ge hbit

/-! ### Decomposition of the renderer over the bit pattern -/

theorem and_shifted_mask (n m s : Nat) : n &&& (m <<< s) = ((n >>> s) &&& m) <<< s := by
  apply Nat.eq_of_testBit_eq
  intro i
  simp only [Nat.testBit_and, Nat.testBit_shiftLeft, Nat.testBit_shiftRight]
  by_cases h : s ≤ i
  · simp only [ge_iff_le, h, decide_True, Bool.true_and]
    rw [Nat.add_sub_cancel' h]
  · simp [ge_iff_le, h]

theorem negate_bit_cond (n : Nat) :
    (((n &&& (1 <<< 23) : Nat) : Int) ≠ 0) ↔ ((n >>> 23) &&& 1 = 1) := by
  rw [and_shifted_mask n 1 23, Nat.shiftLeft_eq]
  have hb : (n >>> 23) &&& 1 ≤ 1 := Nat.and_le_right
  constructor
  · intro h
    by_contra hne
    apply h
    have h0 : (n >>> 23) &&& 1 = 0 := by omega
    rw [h0]
    norm_num
  · intro h1 h0
    rw [h1] at h0
    norm_num at h0

theorem cast_shiftLeft15_inj (k x : Nat) :
    (((k <<< 15 : Nat) : Int) = ((x <<< 15 : Nat) : Int)) ↔ k = x := by
  constructor
  · intro h
    have hn : (k <<< 15 : Nat) = (x <<< 15 : Nat) := Int.natCast_inj.mp h
    simp only [Nat.shiftLeft_eq] at hn
    omega
  · rintro rfl
    rfl

theorem adjSwitch_shifted (k : Nat) :
    adjSwitch (((k <<< 15 : Nat) : Int)) = specAdj k := by
  unfold adjSwitch specAdj ERR_A ERR_ACK ERR_ACTIVE ERR_ALIGNED ERR_ALLOWED ERR_ASSIGNED ERR_ATTACHED ERR_ATTEMPTED ERR_AUTHORIZED ERR_AVAILABLE ERR_BAD ERR_BLOCKED ERR_BROKEN ERR_BUILT ERR_BUSY ERR_CLOSED ERR_COMPILED ERR_COMPLETE ERR_CONFLICTED ERR_CONNECTED ERR_CONSTRUCTED ERR_CREATED ERR_DEFINED ERR_DENIED ERR_DESTRUCTED ERR_DETACHED ERR_DETECTED ERR_DOWN ERR_DOWNLOADED ERR_EMPTY ERR_ENHANCED ERR_ENOUGH ERR_EXCEEDED ERR_EXCHANGED ERR_EXECUTABLE ERR_EXISTS ERR_EXPIRED ERR_EXTENDED ERR_FAILED ERR_FALSE ERR_FATAL ERR_FORBIDDEN ERR_FORMATTED ERR_FOUND ERR_FULL ERR_GONE ERR_GOOD ERR_HALTED ERR_HOLD ERR_IDLE ERR_ILLEGAL ERR_IMPLEMENTED ERR_IN_PROGRESS ERR_IN_USE ERR_INITIALIZED ERR_INSTALLED ERR_INTERRUPTED ERR_KNOWN ERR_LINKED ERR_LOADED ERR_LOCAL ERR_LOCKED ERR_LOOPED ERR_LOST ERR_MISSING ERR_MOUNTED ERR_NEEDED ERR_NO ERR_NO_SUCH ERR_OFF ERR_ON ERR_ONLINE ERR_OPEN ERR_ORDERED ERR_OUT_OF ERR_OUT_OF_RANGE ERR_OVERFLOW ERR_PADDED ERR_PERMITTED ERR_PROCESSABLE ERR_PROVIDED ERR_REACHABLE ERR_READABLE ERR_RECEIVED ERR_REFUSED ERR_REGISTERED ERR_REJECTED ERR_RELEASED ERR_REMOTE ERR_RENDERABLE ERR_RESERVED ERR_RESET ERR_RESPONDING ERR_RETRIED ERR_RIGHT ERR_RUNNING ERR_SENT ERR_SPECIFIED ERR_STALLED ERR_STOPPED ERR_SUCEEDED ERR_SUITABLE ERR_SUPPORTED ERR_SYNCHRONIZED ERR_TERMINATED ERR_THROWN ERR_TIMED_OUT ERR_TOO_COMPLEX ERR_TOO_FEW ERR_TOO_LARGE ERR_TOO_LONG ERR_TOO_MANY ERR_TOO_MUCH ERR_TOO_SIMPLE ERR_TOO_SMALL ERR_TRIGGERED ERR_TRUE ERR_UNIQUE ERR_UP ERR_UPDATED ERR_UPGRADED ERR_UPLOADED ERR_USED ERR_VALID ERR_WORKING ERR_WRITABLE ERR_WRONG ERR_BIT_A
  simp only [cast_shiftLeft15_inj]

theorem special_cond_iff (k : Nat) :
    ((((k <<< 15 : Nat) : Int) = ERR_A ∨ ((k <<< 15 : Nat) : Int) = ERR_NOT_A ∨
      ((k <<< 15 : Nat) : Int) = ERR_NO ∨ ((k <<< 15 : Nat) : Int) = ERR_NO_SUCH ∨
      ((k <<< 15 : Nat) : Int) = ERR_ENOUGH ∨ ((k <<< 15 : Nat) : Int) = ERR_NOT_ENOUGH) ↔
      k ∈ specialTypes) := by
  have h1 : ERR_NOT_A = ((257 <<< 15 : Nat) : Int) := by decide
  have h2 : ERR_NOT_ENOUGH = ((292 <<< 15 : Nat) : Int) := by decide
  rw [h1, h2]
  unfold ERR_A ERR_NO ERR_NO_SUCH ERR_ENOUGH ERR_BIT_A
  simp only [cast_shiftLeft15_inj, specialTypes, List.mem_cons, List.mem_singleton,
    List.not_mem_nil, or_false]

theorem strerror64_decompose (g : Int → String) (n : Nat) (hn : n < 2 ^ 64) (he : 2 ^ 63 ≤ n) :
    strerror64 g (toInt64 n) =
      (if ((n >>> 15) &&& 0x1ff) ∈ specialTypes then
        join3 (if (n >>> 23) &&& 1 = 1 then "NOT" else "")
              (specAdj ((n >>> 15) &&& 0xff))
              (g ((n &&& 0x7fff : Nat) : Int))
      else
        join3 (g ((n &&& 0x7fff : Nat) : Int))
              (if (n >>> 23) &&& 1 = 1 then "NOT" else "")
              (specAdj ((n >>> 15) &&& 0xff))) := by
  have hneg : ¬ (0 ≤ toInt64 n) := by
    simp only [toInt64, if_neg (by omega : ¬ n < 2 ^ 63)]
    omega
  simp only [strerror64, ERR_BIT_N, ERR_BIT_A]
  rw [if_neg hneg]
  rw [(show (0x7fff : Int) = ((0x7fff : Nat) : Int) by norm_num)]
  simp only [land_toInt64 n 0x7fff hn (by norm_num),
    land_toInt64 n (1 <<< 23) hn (by decide),
    land_toInt64 n (0xff <<< 15) hn (by decide),
    land_toInt64 n (0x1ff <<< 15) hn (by decide)]
  simp only [and_shifted_mask n 0xff 15, and_shifted_mask n 0x1ff 15]
  simp only [adjSwitch_shifted ((n >>> 15) &&& 0xff),
    negate_bit_cond n, special_cond_iff ((n >>> 15) &&& 0x1ff)]

theorem strerror64_glossary_congr (g1 g2 : Int → String) (ec : Int)
    (h : g1 (Int.land ec 0x7fff) = g2 (Int.land ec 0x7fff)) :
    strerror64 g1 ec = strerror64 g2 ec := by
  simp only [strerror64, h]



theorem join3_shape (s0 s1 s2 : String) :
    join3 s0 s1 s2 = joinSp ([s0, s1, s2].filter (fun s => s ≠ "")) ++
      (if s2 = "" ∧ ¬(s0 = "" ∧ s1 = "") then " " else "") := by
  by_cases h0 : s0 = "" <;> by_cases h1 : s1 = "" <;> by_cases h2 : s2 = "" <;>
    simp [join3, joinSp, h0, h1, h2, String.append_assoc]

theorem join3_empty_left (s : String) : join3 "" s "" = s ++ (if s = "" then "" else " ") := by
  simp [join3]

theorem join3_empties (s : String) : join3 "" "" s = s := by
  simp [join3]

theorem c3_noun_mask : ∀ a : Nat, a < 256 →
    ERROR64 0 0 0 (a <<< ERR_BIT_A) &&& 0x7fff = 0 := by decide

theorem c3_land_zero (a : Nat) (ha : a < 256) :
    Int.land (toInt64 (ERROR64 0 0 0 (a <<< ERR_BIT_A))) 0x7fff = 0 := by
  rw [(show (0x7fff : Int) = ((0x7fff : Nat) : Int) by norm_num),
    land_toInt64 _ 0x7fff (ERROR64_lt 0 0 0 (a <<< ERR_BIT_A)) (by norm_num)]
  exact_mod_cast c3_noun_mask a ha

theorem c3_table : ∀ a : Nat, a < 256 →
    (specAdj a ≠ "" ↔ (1 ≤ a ∧ a ≤ 151 ∧ a ∉ missingAttrs)) := by decide

theorem c3_pattern (a : Nat) (ha : a < 256) :
    ERROR64 0 0 0 (a <<< ERR_BIT_A) = 2 ^ 63 + a * 2 ^ 15 := by
  unfold ERROR64 ERR_ERROR ERR_BIT_E ERR_BIT_V ERR_BIT_R ERR_BIT_L ERR_BIT_A
  simp only [Nat.shiftLeft_eq, Nat.zero_mul, Nat.or_zero, Nat.one_mul]
  rw [lor_eq_add (2 ^ 63) (a * 2 ^ 15) 63 (by omega) (by omega)]
  omega

/-! ### Claim theorems -/

/-- C1: for every field tuple in which each field fits its declared width
(version 7 bits, revision and line 16 bits, negation 1 bit, attribute 8 bits,
noun 15 bits), extracting any field from the code built by the ERROR64 macro
with the corresponding ERROR64_GET macro returns exactly that field, and the
error flag extracts as 1. -/
theorem encode_extract_roundtrip (ver rev line neg attr noun : Nat)
    (hv : ver < 2 ^ 7) (hr : rev < 2 ^ 16) (hl : line < 2 ^ 16)
    (hn : neg < 2) (ha : attr < 2 ^ 8) (hu : noun < 2 ^ 15) :
    ERROR64_GET_E (toInt64 (ERROR64 ver rev line
      ((neg <<< ERR_BIT_N) ||| (attr <<< ERR_BIT_A) ||| noun))) = 1 ∧
    ERROR64_GET_V (toInt64 (ERROR64 ver rev line
      ((neg <<< ERR_BIT_N) ||| (attr <<< ERR_BIT_A) ||| noun))) = (ver : Int) ∧
    ERROR64_GET_R (toInt64 (ERROR64 ver rev line
      ((neg <<< ERR_BIT_N) ||| (attr <<< ERR_BIT_A) ||| noun))) = (rev : Int) ∧
    ERROR64_GET_L (toInt64 (ERROR64 ver rev line
      ((neg <<< ERR_BIT_N) ||| (attr <<< ERR_BIT_A) ||| noun))) = (line : Int) ∧
    ERROR64_GET_N (toInt64 (ERROR64 ver rev line
      ((neg <<< ERR_BIT_N) ||| (attr <<< ERR_BIT_A) ||| noun))) = (neg : Int) ∧
    ERROR64_GET_A (toInt64 (ERROR64 ver rev line
      ((neg <<< ERR_BIT_N) ||| (attr <<< ERR_BIT_A) ||| noun))) = (attr : Int) ∧
    ERROR64_GET_U (toInt64 (ERROR64 ver rev line
      ((neg <<< ERR_BIT_N) ||| (attr <<< ERR_BIT_A) ||| noun))) = (noun : Int) := by
  rw [ERROR64_eq_sum ver rev line neg attr noun hv hr hl hn ha hu]
  have hS : 2 ^ 63 + ver * 2 ^ 56 + rev * 2 ^ 40 + line * 2 ^ 24 + neg * 2 ^ 23 +
      attr * 2 ^ 15 + noun < 2 ^ 64 := by omega
  refine ⟨?_, ?_, ?_, ?_, ?_, ?_, ?_⟩
  · rw [ERROR64_GET_E_eq _ hS, Nat.shiftRight_eq_div_pow,
      (show (0x1 : Nat) = 2 ^ 1 - 1 by norm_num), Nat.and_pow_two_sub_one_eq_mod,
      (show (2 ^ 63 + ver * 2 ^ 56 + rev * 2 ^ 40 + line * 2 ^ 24 + neg * 2 ^ 23 +
        attr * 2 ^ 15 + noun) / 2 ^ 63 % 2 ^ 1 = 1 by omega)]
    norm_num
  · rw [ERROR64_GET_V_eq _ hS, Nat.shiftRight_eq_div_pow,
      (show (0x7f : Nat) = 2 ^ 7 - 1 by norm_num), Nat.and_pow_two_sub_one_eq_mod,
      (show (2 ^ 63 + ver * 2 ^ 56 + rev * 2 ^ 40 + line * 2 ^ 24 + neg * 2 ^ 23 +
        attr * 2 ^ 15 + noun) / 2 ^ 56 % 2 ^ 7 = ver by omega)]
  · rw [ERROR64_GET_R_eq _ hS, Nat.shiftRight_eq_div_pow,
      (show (0xffff : Nat) = 2 ^ 16 - 1 by norm_num), Nat.and_pow_two_sub_one_eq_mod,
      (show (2 ^ 63 + ver * 2 ^ 56 + rev * 2 ^ 40 + line * 2 ^ 24 + neg * 2 ^ 23 +
        attr * 2 ^ 15 + noun) / 2 ^ 40 % 2 ^ 16 = rev by omega)]
  · rw [ERROR64_GET_L_eq _ hS, Nat.shiftRight_eq_div_pow,
      (show (0xffff : Nat) = 2 ^ 16 - 1 by norm_num), Nat.and_pow_two_sub_one_eq_mod,
      (show (2 ^ 63 + ver * 2 ^ 56 + rev * 2 ^ 40 + line * 2 ^ 24 + neg * 2 ^ 23 +
        attr * 2 ^ 15 + noun) / 2 ^ 24 % 2 ^ 16 = line by omega)]
  · rw [ERROR64_GET_N_eq _ hS, Nat.shiftRight_eq_div_pow,
      (show (0x1 : Nat) = 2 ^ 1 - 1 by norm_num), Nat.and_pow_two_sub_one_eq_mod,
      (show (2 ^ 63 + ver * 2 ^ 56 + rev * 2 ^ 40 + line * 2 ^ 24 + neg * 2 ^ 23 +
        attr * 2 ^ 15 + noun) / 2 ^ 23 % 2 ^ 1 = neg by omega)]
  · rw [ERROR64_GET_A_eq _ hS, Nat.shiftRight_eq_div_pow,
      (show (0xff : Nat) = 2 ^ 8 - 1 by norm_num), Nat.and_pow_two_sub_one_eq_mod,
      (show (2 ^ 63 + ver * 2 ^ 56 + rev * 2 ^ 40 + line * 2 ^ 24 + neg * 2 ^ 23 +
        attr * 2 ^ 15 + noun) / 2 ^ 15 % 2 ^ 8 = attr by omega)]
  · rw [ERROR64_GET_U_eq _ hS, Nat.shiftRight_eq_div_pow,
      (show (0x7fff : Nat) = 2 ^ 15 - 1 by norm_num), Nat.and_pow_two_sub_one_eq_mod,
      (show (2 ^ 63 + ver * 2 ^ 56 + rev * 2 ^ 40 + line * 2 ^ 24 + neg * 2 ^ 23 +
        attr * 2 ^ 15 + noun) / 2 ^ 0 % 2 ^ 15 = noun by omega)]

theorem encode_extract_roundtrip_witness :
    ERROR64_GET_E (toInt64 (ERROR64 3 5 7
      ((1 <<< ERR_BIT_N) ||| (48 <<< ERR_BIT_A) ||| 9))) = 1 ∧
    ERROR64_GET_V (toInt64 (ERROR64 3 5 7
      ((1 <<< ERR_BIT_N) ||| (48 <<< ERR_BIT_A) ||| 9))) = ((3 : Nat) : Int) ∧
    ERROR64_GET_R (toInt64 (ERROR64 3 5 7
      ((1 <<< ERR_BIT_N) ||| (48 <<< ERR_BIT_A) ||| 9))) = ((5 : Nat) : Int) ∧
    ERROR64_GET_L (toInt64 (ERROR64 3 5 7
      ((1 <<< ERR_BIT_N) ||| (48 <<< ERR_BIT_A) ||| 9))) = ((7 : Nat) : Int) ∧
    ERROR64_GET_N (toInt64 (ERROR64 3 5 7
      ((1 <<< ERR_BIT_N) ||| (48 <<< ERR_BIT_A) ||| 9))) = ((1 : Nat) : Int) ∧
    ERROR64_GET_A (toInt64 (ERROR64 3 5 7
      ((1 <<< ERR_BIT_N) ||| (48 <<< ERR_BIT_A) ||| 9))) = ((48 : Nat) : Int) ∧
    ERROR64_GET_U (toInt64 (ERROR64 3 5 7
      ((1 <<< ERR_BIT_N) ||| (48 <<< ERR_BIT_A) ||| 9))) = ((9 : Nat) : Int) :=
  encode_extract_roundtrip 3 5 7 1 48 9 (by norm_num) (by norm_num) (by norm_num)
    (by norm_num) (by norm_num) (by norm_num)

/-- C2: strerror64 returns the empty string for every non-negative code,
whatever the glossary: no field of the code is inspected. -/
theorem strerror64_success_empty (glossary : Int → String) (code : Int) (h : 0 ≤ code) :
    strerror64 glossary code = "" := by
  simp only [strerror64, if_pos h]

theorem strerror64_success_empty_witness :
    (0 : Int) ≤ 7 ∧ strerror64 (fun _ => "??") 7 = "" :=
  ⟨by norm_num, strerror64_success_empty (fun _ => "??") 7 (by norm_num)⟩


/-- C3 (amended): for attribute-only error codes (negation clear, noun 0,
glossary sending 0 to the empty string), strerror64 yields the switch word of
the attribute, with a trailing space for the four special-ordered attributes
A (1), ENOUGH (36), NO (76), NO SUCH (77); the word is non-empty exactly for
the 127 attribute codes the switch handles, namely the codes 1..151 minus
the 24 unhandled ones listed in missingAttrs. -/
theorem attribute_rendering_amended (g : Int → String) (hg : g 0 = "") :
    ∀ a : Nat, a < 256 →
      strerror64 g (toInt64 (ERROR64 0 0 0 (a <<< ERR_BIT_A))) = expectedAttrOutput a ∧
      (specAdj a ≠ "" ↔ (1 ≤ a ∧ a ≤ 151 ∧ a ∉ missingAttrs)) := by
  intro a ha
  refine ⟨?_, c3_table a ha⟩
  rw [strerror64_glossary_congr g (fun _ => "") _ (by rw [c3_land_zero a ha, hg])]
  rw [strerror64_decompose (fun _ => "") _ (ERROR64_lt 0 0 0 (a <<< ERR_BIT_A))
    (ERROR64_ge 0 0 0 (a <<< ERR_BIT_A))]
  rw [c3_pattern a ha]
  have hkey9 : ((2 ^ 63 + a * 2 ^ 15) >>> 15) &&& 0x1ff = a := by
    rw [Nat.shiftRight_eq_div_pow, (show (0x1ff : Nat) = 2 ^ 9 - 1 by norm_num),
      Nat.and_pow_two_sub_one_eq_mod]
    omega
  have hkey8 : ((2 ^ 63 + a * 2 ^ 15) >>> 15) &&& 0xff = a := by
    rw [Nat.shiftRight_eq_div_pow, (show (0xff : Nat) = 2 ^ 8 - 1 by norm_num),
      Nat.and_pow_two_sub_one_eq_mod]
    omega
  have hneg0 : ((2 ^ 63 + a * 2 ^ 15) >>> 23) &&& 1 = 0 := by
    rw [Nat.shiftRight_eq_div_pow, Nat.and_one_is_mod]
    omega
  have hnoun : (2 ^ 63 + a * 2 ^ 15) &&& 0x7fff = 0 := by
    rw [(show (0x7fff : Nat) = 2 ^ 15 - 1 by norm_num), Nat.and_pow_two_sub_one_eq_mod]
    omega
  simp only [hkey9, hkey8, hneg0, hnoun]
  norm_num
  rw [join3_empty_left, join3_empties]
  have hmem : a ∈ specialTypes ↔ a ∈ ([1, 36, 76, 77] : List Nat) := by
    constructor
    · intro h
      fin_cases h <;> first | decide | omega
    · intro h
      fin_cases h <;> decide
  simp only [hmem]
  unfold expectedAttrOutput
  by_cases hm : a ∈ ([1, 36, 76, 77] : List Nat)
  · simp only [if_pos hm]
    have hne : specAdj a ≠ "" := by
      fin_cases hm <;> decide
    rw [if_neg hne]
  · simp only [if_neg hm]

theorem attribute_rendering_amended_witness :
    strerror64 (fun _ => "") (toInt64 (ERROR64 0 0 0 (33 <<< ERR_BIT_A))) =
      expectedAttrOutput 33 ∧
    (specAdj 33 ≠ "" ↔ (1 ≤ 33 ∧ 33 ≤ 151 ∧ 33 ∉ missingAttrs)) :=
  attribute_rendering_amended (fun _ => "") rfl 33 (by norm_num)

/-- C3 counterexample: attribute code 17 (ERR_COLLIDED) lies in 1..151 yet
strerror64 renders the corresponding attribute-only error code as the empty
string, not as a non-empty adjective. -/
theorem attribute_17_renders_empty :
    (1 ≤ 17 ∧ 17 ≤ 151) ∧
    strerror64 (fun _ => "") (toInt64 (ERROR64 0 0 0 (17 <<< ERR_BIT_A))) = "" := by
  refine ⟨by norm_num, ?_⟩
  rw [strerror64_decompose (fun _ => "") _ (ERROR64_lt 0 0 0 (17 <<< ERR_BIT_A))
    (ERROR64_ge 0 0 0 (17 <<< ERR_BIT_A))]
  decide

/-- C4: for every negative code, the renderer joins the components in the
order noun, negation word, adjective, except when the combined 9-bit
negation-plus-attribute field equals one of the six values A (1),
NOT A (257), NO (76), NO SUCH (77), ENOUGH (36), NOT ENOUGH (292), in which
case the order is negation word, adjective, noun; the exception is keyed on
the combined field value, not on negation or attribute alone. -/
theorem word_order_exception (g : Int → String) (n : Nat)
    (hn : n < 2 ^ 64) (he : 2 ^ 63 ≤ n) :
    strerror64 g (toInt64 n) =
      (if ((n >>> 15) &&& 0x1ff) ∈ ([1, 257, 76, 77, 36, 292] : List Nat) then
        join3 (if (n >>> 23) &&& 1 = 1 then "NOT" else "")
              (specAdj ((n >>> 15) &&& 0xff))
              (g ((n &&& 0x7fff : Nat) : Int))
      else
        join3 (g ((n &&& 0x7fff : Nat) : Int))
              (if (n >>> 23) &&& 1 = 1 then "NOT" else "")
              (specAdj ((n >>> 15) &&& 0xff))) :=
  strerror64_decompose g n hn he

theorem word_order_exception_witness :
    strerror64 (fun i => if i = 5 then "SPACE" else "??")
      (toInt64 (2 ^ 63 + (1 <<< 23) + (36 <<< 15) + 5)) = "NOT ENOUGH SPACE" := by
  rw [word_order_exception (fun i => if i = 5 then "SPACE" else "??")
    (2 ^ 63 + (1 <<< 23) + (36 <<< 15) + 5) (by decide) (by decide)]
  decide

/-- C5: the ERROR64 macro always produces a negative signed value, for every
argument and every version, revision and line value, since the bitwise or
forces bit 63 of the pattern. -/
theorem ERROR64_always_negative (ver rev line x : Nat) :
    toInt64 (ERROR64 ver rev line x) < 0 := by
  have hge := ERROR64_ge ver rev line x
  have hlt := ERROR64_lt ver rev line x
  simp only [toInt64, if_neg (by omega : ¬ ERROR64 ver rev line x < 2 ^ 63)]
  omega

/-- C6 (amended): for every negative code, the output is the non-empty
components in join order separated by single spaces, except that a single
trailing space is appended when the last component in join order is empty
while an earlier one is not: the renderer appends a separator after each
non-empty component among the first two, regardless of what follows. -/
theorem strerror64_join_spacing (g : Int → String) (n : Nat)
    (hn : n < 2 ^ 64) (he : 2 ^ 63 ≤ n) :
    strerror64 g (toInt64 n) =
      joinSp ((orderedParts g n).filter (fun s => s ≠ "")) ++
        (if (orderedParts g n).getD 2 "" = "" ∧
            ¬((orderedParts g n).getD 0 "" = "" ∧ (orderedParts g n).getD 1 "" = "")
          then " " else "") := by
  rw [strerror64_decompose g n hn he]
  unfold orderedParts
  by_cases hs : ((n >>> 15) &&& 0x1ff) ∈ specialTypes
  · simp only [if_pos hs, List.getD_cons_zero, List.getD_cons_succ]
    exact join3_shape _ _ _
  · simp only [if_neg hs, List.getD_cons_zero, List.getD_cons_succ]
    exact join3_shape _ _ _

theorem strerror64_join_spacing_witness :
    strerror64 (fun i => if i = 2 then "DATA" else "") (toInt64 (2 ^ 63 + 2)) =
      joinSp ((orderedParts (fun i => if i = 2 then "DATA" else "") (2 ^ 63 + 2)).filter
          (fun s => s ≠ "")) ++
        (if (orderedParts (fun i => if i = 2 then "DATA" else "") (2 ^ 63 + 2)).getD 2 "" = "" ∧
            ¬((orderedParts (fun i => if i = 2 then "DATA" else "") (2 ^ 63 + 2)).getD 0 "" = "" ∧
              (orderedParts (fun i => if i = 2 then "DATA" else "") (2 ^ 63 + 2)).getD 1 "" = "")
          then " " else "") :=
  strerror64_join_spacing (fun i => if i = 2 then "DATA" else "") (2 ^ 63 + 2)
    (by norm_num) (by norm_num)

/-- C6 counterexample: the error code with noun FILE, no negation and empty
adjective renders as the five characters F, I, L, E, space: the output
carries a trailing space, so it is not the plain space-separated join of its
non-empty components. -/
theorem strerror64_trailing_space_cex :
    strerror64 (fun i => if i = 1 then "FILE" else "") (toInt64 (2 ^ 63 + 1)) = "FILE " ∧
    ("FILE " : String) ≠ "FILE" := by
  refine ⟨?_, by decide⟩
  rw [strerror64_decompose (fun i => if i = 1 then "FILE" else "") (2 ^ 63 + 1)
    (by norm_num) (by norm_num)]
  decide

/-- C7: for every 64-bit pattern, each ERROR64_GET macro applied to the
signed value returns the logical shift-and-mask of the pattern, interpreted
unsigned: the arithmetic shift of a negative container never sign-extends
into the masked result. -/
theorem extraction_never_sign_extends (n : Nat) (hn : n < 2 ^ 64) :
    ERROR64_GET_E (toInt64 n) = ((n >>> 63) &&& 0x1 : Nat) ∧
    ERROR64_GET_V (toInt64 n) = ((n >>> 56) &&& 0x7f : Nat) ∧
    ERROR64_GET_R (toInt64 n) = ((n >>> 40) &&& 0xffff : Nat) ∧
    ERROR64_GET_L (toInt64 n) = ((n >>> 24) &&& 0xffff : Nat) ∧
    ERROR64_GET_N (toInt64 n) = ((n >>> 23) &&& 0x1 : Nat) ∧
    ERROR64_GET_A (toInt64 n) = ((n >>> 15) &&& 0xff : Nat) ∧
    ERROR64_GET_U (toInt64 n) = ((n >>> 0) &&& 0x7fff : Nat) :=
  ⟨ERROR64_GET_E_eq n hn, ERROR64_GET_V_eq n hn, ERROR64_GET_R_eq n hn,
   ERROR64_GET_L_eq n hn, ERROR64_GET_N_eq n hn, ERROR64_GET_A_eq n hn,
   ERROR64_GET_U_eq n hn⟩

theorem extraction_never_sign_extends_witness :
    ERROR64_GET_E (toInt64 (2 ^ 64 - 1)) = (((2 ^ 64 - 1) >>> 63) &&& 0x1 : Nat) ∧
    ERROR64_GET_V (toInt64 (2 ^ 64 - 1)) = (((2 ^ 64 - 1) >>> 56) &&& 0x7f : Nat) ∧
    ERROR64_GET_R (toInt64 (2 ^ 64 - 1)) = (((2 ^ 64 - 1) >>> 40) &&& 0xffff : Nat) ∧
    ERROR64_GET_L (toInt64 (2 ^ 64 - 1)) = (((2 ^ 64 - 1) >>> 24) &&& 0xffff : Nat) ∧
    ERROR64_GET_N (toInt64 (2 ^ 64 - 1)) = (((2 ^ 64 - 1) >>> 23) &&& 0x1 : Nat) ∧
    ERROR64_GET_A (toInt64 (2 ^ 64 - 1)) = (((2 ^ 64 - 1) >>> 15) &&& 0xff : Nat) ∧
    ERROR64_GET_U (toInt64 (2 ^ 64 - 1)) = (((2 ^ 64 - 1) >>> 0) &&& 0x7fff : Nat) :=
  extraction_never_sign_extends (2 ^ 64 - 1) (by norm_num)

/-- C8: two negative codes agreeing on their low 24 bits render identically
under the same glossary: the version, revision, line and error-flag fields
in the upper 40 bits never influence the text. -/
theorem strerror64_ignores_upper_bits (g : Int → String) (n1 n2 : Nat)
    (h1 : n1 < 2 ^ 64) (e1 : 2 ^ 63 ≤ n1) (h2 : n2 < 2 ^ 64) (e2 : 2 ^ 63 ≤ n2)
    (hlow : n1 % 2 ^ 24 = n2 % 2 ^ 24) :
    strerror64 g (toInt64 n1) = strerror64 g (toInt64 n2) := by
  rw [strerror64_decompose g n1 h1 e1, strerror64_decompose g n2 h2 e2]
  have ha : n1 &&& 0x7fff = n2 &&& 0x7fff := by
    rw [(show (0x7fff : Nat) = 2 ^ 15 - 1 by norm_num)]
    simp only [Nat.and_pow_two_sub_one_eq_mod]
    omega
  have hb : (n1 >>> 23) &&& 1 = (n2 >>> 23) &&& 1 := by
    simp only [Nat.and_one_is_mod, Nat.shiftRight_eq_div_pow]
    omega
  have hc : (n1 >>> 15) &&& 0xff = (n2 >>> 15) &&& 0xff := by
    rw [(show (0xff : Nat) = 2 ^ 8 - 1 by norm_num)]
    simp only [Nat.and_pow_two_sub_one_eq_mod, Nat.shiftRight_eq_div_pow]
    omega
  have hd : (n1 >>> 15) &&& 0x1ff = (n2 >>> 15) &&& 0x1ff := by
    rw [(show (0x1ff : Nat) = 2 ^ 9 - 1 by norm_num)]
    simp only [Nat.and_pow_two_sub_one_eq_mod, Nat.shiftRight_eq_div_pow]
    omega
  simp only [ha, hb, hc, hd]

theorem strerror64_ignores_upper_bits_witness :
    strerror64 (fun i => if i = 3 then "DISK" else "") (toInt64 (2 ^ 63 + (49 <<< 15) + 3)) =
    strerror64 (fun i => if i = 3 then "DISK" else "")
      (toInt64 (2 ^ 63 + (5 <<< 56) + (9 <<< 40) + (77 <<< 24) + (49 <<< 15) + 3)) :=
  strerror64_ignores_upper_bits (fun i => if i = 3 then "DISK" else "") _ _
    (by decide) (by decide) (by decide) (by decide) (by decide)

/-- C9: for every code, the output of strerror64ex has the output of
strerror64 for the same code as a prefix: some suffix extends it. -/
theorem strerror64ex_extends_strerror64 (g pfmt : Int → String) (ec : Int) :
    ∃ t, strerror64ex g pfmt ec = strerror64 g ec ++ t := by
  by_cases h : 0 ≤ ec
  · refine ⟨"No error ; ERR_" ++ pfmt ec, ?_⟩
    simp only [strerror64ex, strerror64, if_pos h]
    exact (String.empty_append _).symm
  · exact ⟨" ; ERR_" ++ pfmt ec ++
      " error=" ++ toString (ERROR64_GET_E ec) ++
      ",api=" ++ toString (ERROR64_GET_V ec) ++
      ",rev=" ++ toString (ERROR64_GET_R ec) ++
      ",line=" ++ toString (ERROR64_GET_L ec) ++
      ",neg=" ++ toString (ERROR64_GET_N ec) ++
      ",attr=" ++ toString (ERROR64_GET_A ec) ++
      ",noun=" ++ toString (ERROR64_GET_U ec), by simp only [strerror64ex, if_neg h]⟩

/-- C10: for every non-negative code, strerror64ex returns the text
No error ; ERR_ followed by the pointer rendering of the raw value, and in
particular never the empty string. -/
theorem strerror64ex_success_nonempty (g pfmt : Int → String) (ec : Int) (h : 0 ≤ ec) :
    strerror64ex g pfmt ec = "No error ; ERR_" ++ pfmt ec ∧ strerror64ex g pfmt ec ≠ "" := by
  have heq : strerror64ex g pfmt ec = "No error ; ERR_" ++ pfmt ec := by
    simp only [strerror64ex, if_pos h]
  refine ⟨heq, ?_⟩
  rw [heq]
  intro hc
  have hlen := congrArg String.length hc
  rw [String.length_append] at hlen
  have h15 : ("No error ; ERR_" : String).length = 15 := by decide
  have hz : ("" : String).length = 0 := by decide
  rw [h15, hz] at hlen
  omega

theorem strerror64ex_success_nonempty_witness :
    strerror64ex (fun _ => "") (fun _ => "0x0") 0 = "No error ; ERR_" ++ "0x0" ∧
    strerror64ex (fun _ => "") (fun _ => "0x0") 0 ≠ "" :=
  strerror64ex_success_nonempty (fun _ => "") (fun _ => "0x0") 0 (by norm_num)

end Error64
